import Mathlib

/-!
# libcpu, `arch/x86/x86_decode.h`

A shallow embedding of the x86 instruction-decoding interface of libcpu:
the flag vocabulary of `enum x86_instr_flags`, the addressing modes of
`enum x86_addmode`, the operand tags of `enum x86_operand_type`, and the
records `struct x86_operand` and `struct x86_instr`.

C enumeration constants are embedded as natural numbers; `|`, `&` and `<<`
are the bitwise operations of `Nat`.  Every constant is below `2 ^ 31`, so
no wrap-around takes place in the constant expressions of the header.
-/

set_option maxRecDepth 100000

namespace X86

/-! ## `enum x86_instr_flags` -/

def MOD_RM : Nat := 1 <<< 8
def DIR_REVERSED : Nat := 1 <<< 9

/-- Operand size: 8 bits. -/
def WIDTH_BYTE : Nat := 1 <<< 10
/-- Operand size: 16 bits or 32 bits. -/
def WIDTH_FULL : Nat := 1 <<< 11
def WIDTH_MASK : Nat := WIDTH_BYTE ||| WIDTH_FULL

def SRC_NONE : Nat := 1 <<< 12

def SRC_IMM : Nat := 1 <<< 13
def SRC_IMM8 : Nat := 1 <<< 14
def IMM_MASK : Nat := SRC_IMM ||| SRC_IMM8

def SRC_REL : Nat := 1 <<< 15
def REL_MASK : Nat := SRC_REL

def SRC_REG : Nat := 1 <<< 16
def SRC_SEG_REG : Nat := 1 <<< 17
def SRC_ACC : Nat := 1 <<< 18
def SRC_MEM : Nat := 1 <<< 19
def SRC_MOFFSET : Nat := 1 <<< 20
def SRC_MEM_DISP_BYTE : Nat := 1 <<< 21
def SRC_MEM_DISP_FULL : Nat := 1 <<< 22
def SRC_MASK : Nat :=
  SRC_NONE ||| IMM_MASK ||| REL_MASK ||| SRC_REG ||| SRC_SEG_REG ||| SRC_ACC ||| SRC_MEM
    ||| SRC_MOFFSET ||| SRC_MEM_DISP_BYTE ||| SRC_MEM_DISP_FULL

def DST_NONE : Nat := 1 <<< 23
def DST_REG : Nat := 1 <<< 24
/-- Destination AL/AX. -/
def DST_ACC : Nat := 1 <<< 25
def DST_MEM : Nat := 1 <<< 26
def DST_MOFFSET : Nat := 1 <<< 27
def DST_MEM_DISP_BYTE : Nat := 1 <<< 28
def DST_MEM_DISP_FULL : Nat := 1 <<< 29
def DST_MASK : Nat :=
  DST_NONE ||| DST_REG ||| DST_ACC ||| DST_MOFFSET ||| DST_MEM ||| DST_MEM_DISP_BYTE
    ||| DST_MEM_DISP_FULL

def MEM_DISP_MASK : Nat :=
  SRC_MEM ||| SRC_MEM_DISP_BYTE ||| SRC_MEM_DISP_FULL ||| DST_MEM ||| DST_MEM_DISP_BYTE
    ||| DST_MEM_DISP_FULL

def MOFFSET_MASK : Nat := SRC_MOFFSET ||| DST_MOFFSET

def GROUP_2 : Nat := 1 <<< 30

def GROUP_MASK : Nat := GROUP_2

/-! ## `enum x86_addmode` -/

/-- The thirteen enumerators of `enum x86_addmode`, in declaration order. -/
inductive x86_addmode
  | ADDMODE_ACC_MOFFSET
  | ADDMODE_ACC_REG
  | ADDMODE_IMM
  | ADDMODE_IMM8_RM
  | ADDMODE_IMM_ACC
  | ADDMODE_IMM_REG
  | ADDMODE_IMPLIED
  | ADDMODE_MOFFSET_ACC
  | ADDMODE_REG
  | ADDMODE_SEG_REG
  | ADDMODE_REG_RM
  | ADDMODE_REL
  | ADDMODE_RM_REG
  deriving DecidableEq, Repr

/-- The value the header gives each enumerator of `enum x86_addmode`. -/
def x86_addmode.val : x86_addmode → Nat
  | .ADDMODE_ACC_MOFFSET => SRC_ACC ||| DST_MOFFSET
  | .ADDMODE_ACC_REG => SRC_ACC ||| DST_REG
  | .ADDMODE_IMM => SRC_IMM ||| DST_NONE
  | .ADDMODE_IMM8_RM => SRC_IMM8 ||| MOD_RM ||| DIR_REVERSED
  | .ADDMODE_IMM_ACC => SRC_IMM ||| DST_ACC
  | .ADDMODE_IMM_REG => SRC_IMM ||| DST_REG
  | .ADDMODE_IMPLIED => SRC_NONE ||| DST_NONE
  | .ADDMODE_MOFFSET_ACC => SRC_MOFFSET ||| DST_ACC
  | .ADDMODE_REG => SRC_REG ||| DST_NONE
  | .ADDMODE_SEG_REG => SRC_SEG_REG ||| DST_NONE
  | .ADDMODE_REG_RM => SRC_REG ||| MOD_RM ||| DIR_REVERSED
  | .ADDMODE_REL => SRC_REL ||| DST_NONE
  | .ADDMODE_RM_REG => DST_REG ||| MOD_RM

/-- All enumerators of `enum x86_addmode`, in declaration order. -/
def all_addmodes : List x86_addmode :=
  [.ADDMODE_ACC_MOFFSET, .ADDMODE_ACC_REG, .ADDMODE_IMM, .ADDMODE_IMM8_RM, .ADDMODE_IMM_ACC,
   .ADDMODE_IMM_REG, .ADDMODE_IMPLIED, .ADDMODE_MOFFSET_ACC, .ADDMODE_REG, .ADDMODE_SEG_REG,
   .ADDMODE_REG_RM, .ADDMODE_REL, .ADDMODE_RM_REG]

/-- Number of bits set among bit positions 0 to 63 of a word (the size of an
`unsigned long` flags field). -/
def bit_count (x : Nat) : Nat :=
  (List.range 64).countP (fun i => x.testBit i)

/-! ## Operand tags, prefixes and records -/

/-- The six enumerators of `enum x86_operand_type`, in declaration order. -/
inductive x86_operand_type
  | OP_IMM
  | OP_MEM
  | OP_MEM_DISP
  | OP_REG
  | OP_SEG_REG
  | OP_REL
  deriving DecidableEq, Repr

/-- The value C gives each enumerator of `enum x86_operand_type` (counting from 0). -/
def x86_operand_type.val : x86_operand_type → Nat
  | .OP_IMM => 0
  | .OP_MEM => 1
  | .OP_MEM_DISP => 2
  | .OP_REG => 3
  | .OP_SEG_REG => 4
  | .OP_REL => 5

/-- All enumerators of `enum x86_operand_type`, in declaration order. -/
def all_operand_types : List x86_operand_type :=
  [.OP_IMM, .OP_MEM, .OP_MEM_DISP, .OP_REG, .OP_SEG_REG, .OP_REL]

/-- The tags of `enum x86_operand_type` that denote a memory operand. -/
def memory_operand_types : List x86_operand_type := [.OP_MEM, .OP_MEM_DISP]

/-- The three displacement classes of a ModRM memory operand. -/
inductive disp_class
  | none
  | byte
  | full
  deriving DecidableEq, Repr

/-- The enumerators of `enum x86_seg_override`, in declaration order. -/
inductive x86_seg_override
  | NO_OVERRIDE
  | ES_OVERRIDE
  | CS_OVERRIDE
  | SS_OVERRIDE
  | DS_OVERRIDE
  deriving DecidableEq, Repr

/-- The value C gives each enumerator of `enum x86_seg_override`. -/
def x86_seg_override.val : x86_seg_override → Nat
  | .NO_OVERRIDE => 0
  | .ES_OVERRIDE => 1
  | .CS_OVERRIDE => 2
  | .SS_OVERRIDE => 3
  | .DS_OVERRIDE => 4

/-- The enumerators of `enum x86_rep_prefix`, in declaration order. -/
inductive x86_rep_prefix
  | NO_PREFIX
  | REPNZ_PREFIX
  | REPZ_PREFIX
  deriving DecidableEq, Repr

/-- The value C gives each enumerator of `enum x86_rep_prefix`. -/
def x86_rep_prefix.val : x86_rep_prefix → Nat
  | .NO_PREFIX => 0
  | .REPNZ_PREFIX => 1
  | .REPZ_PREFIX => 2

/-- The record `struct x86_operand`.  The anonymous union of `imm` (`uint32_t`) and `rel`
(`int32_t`) is one 32-bit word, kept in `imm`; `x86_operand.rel` reads it as signed. -/
structure x86_operand where
  type : x86_operand_type
  reg : Nat
  disp : Int
  imm : Nat
  deriving DecidableEq, Repr

/-- The record `struct x86_instr`.  The anonymous union of `imm_data` and `rel_data` is one
32-bit word, kept in `imm_data`. -/
structure x86_instr where
  nr_bytes : Nat
  opcode : Nat
  width : Nat
  mod : Nat
  rm : Nat
  reg_opc : Nat
  disp : Nat
  imm_data : Nat
  type : Nat
  flags : Nat
  seg_override : x86_seg_override
  rep_prefix : x86_rep_prefix
  lock_prefix : Nat
  src : x86_operand
  dst : x86_operand
  deriving DecidableEq, Repr

/-- Reading a 32-bit word as a two's complement `int32_t`; also the conversion of a wider
unsigned value to `int`. -/
def to_int32 (n : Nat) : Int :=
  if n % 2 ^ 32 < 2 ^ 31 then ((n % 2 ^ 32 : Nat) : Int) else ((n % 2 ^ 32 : Nat) : Int) - 2 ^ 32

/-- The `rel` member of the union in `struct x86_operand`. -/
def x86_operand.rel (o : x86_operand) : Int := to_int32 o.imm

/-! ## The decoder

`x86_decode.h` declares `arch_8086_decode_instr` and `arch_8086_instr_length`; their bodies
are in `x86_decode.c`.  The definitions of this section follow the design text of the
decoder (prefix scanner, opcode lookup, ModRM/operand resolver, driver). -/

/-- The record of `mov ax, 1`, the bytes B8 01 00, under `sample_tables`. -/
def sample_mov : x86_instr :=
  { nr_bytes := 3, opcode := 0xB8, width := 16, mod := 0, rm := 0, reg_opc := 0, disp := 0,
    imm_data := 1, type := 1, flags := SRC_IMM ||| DST_REG ||| WIDTH_FULL,
    seg_override := .NO_OVERRIDE, rep_prefix := .NO_PREFIX, lock_prefix := 0,
    src := ⟨.OP_IMM, 0, 0, 1⟩, dst := ⟨.OP_REG, 0, 0, 0⟩ }

/-! ## Lists of flags -/

/-- The eleven source flags of `enum x86_instr_flags`, in declaration order. -/
def src_flags : List Nat :=
  [SRC_NONE, SRC_IMM, SRC_IMM8, SRC_REL, SRC_REG, SRC_SEG_REG, SRC_ACC, SRC_MEM, SRC_MOFFSET,
   SRC_MEM_DISP_BYTE, SRC_MEM_DISP_FULL]

/-- The seven destination flags of `enum x86_instr_flags`, in declaration order. -/
def dst_flags : List Nat :=
  [DST_NONE, DST_REG, DST_ACC, DST_MEM, DST_MOFFSET, DST_MEM_DISP_BYTE, DST_MEM_DISP_FULL]

/-- The single-flag constants of `enum x86_instr_flags`, in declaration order. -/
def single_flags : List Nat :=
  (MOD_RM :: [DIR_REVERSED, WIDTH_BYTE, WIDTH_FULL]) ++ src_flags ++ dst_flags ++ [GROUP_2]

/-- The six facets of a flags word. -/
def facet_masks : List Nat :=
  [SRC_MASK, DST_MASK, WIDTH_MASK, GROUP_MASK, MOD_RM, DIR_REVERSED]

/-- The bits of a flags word that carry the addressing mode. -/
def ADDMODE_BITS : Nat := SRC_MASK ||| DST_MASK ||| MOD_RM ||| DIR_REVERSED

/-- The flags word of a table row: mode, width, instruction type and group marker. -/
def pack_flags (m : x86_addmode) (w t g : Nat) : Nat := m.val ||| w ||| t ||| g

/-- The C operator `~` on a word of `w` bits. -/
def bit_not (w x : Nat) : Nat := 2 ^ w - 1 - x % 2 ^ w

/-- The destination facets a ModRM byte can select. -/
def modrm_dst_facets : List Nat := [DST_REG, DST_MEM, DST_MEM_DISP_BYTE, DST_MEM_DISP_FULL]

/-- The source facets a ModRM byte can select. -/
def modrm_src_facets : List Nat := [SRC_REG, SRC_MEM, SRC_MEM_DISP_BYTE, SRC_MEM_DISP_FULL]

/-! ## Enumerations as lists -/

/-- The thirty-one enumerators of `enum x86_instr_flags`, single flags and masks, in
declaration order. -/
def all_instr_flags : List Nat :=
  MOD_RM :: [DIR_REVERSED, WIDTH_BYTE, WIDTH_FULL, WIDTH_MASK, SRC_NONE, SRC_IMM, SRC_IMM8,
   IMM_MASK, SRC_REL, REL_MASK, SRC_REG, SRC_SEG_REG, SRC_ACC, SRC_MEM, SRC_MOFFSET,
   SRC_MEM_DISP_BYTE, SRC_MEM_DISP_FULL, SRC_MASK, DST_NONE, DST_REG, DST_ACC, DST_MEM,
   DST_MOFFSET, DST_MEM_DISP_BYTE, DST_MEM_DISP_FULL, DST_MASK, MEM_DISP_MASK, MOFFSET_MASK,
   GROUP_2, GROUP_MASK]

/-- The bitwise OR of a list of words. -/
def or_all (l : List Nat) : Nat := l.foldl (fun a b => a ||| b) 0

/-- All enumerators of `enum x86_seg_override`, in declaration order. -/
def all_seg_overrides : List x86_seg_override :=
  [.NO_OVERRIDE, .ES_OVERRIDE, .CS_OVERRIDE, .SS_OVERRIDE, .DS_OVERRIDE]

/-- All enumerators of `enum x86_rep_prefix`, in declaration order. -/
def all_rep_prefixes : List x86_rep_prefix :=
  [.NO_PREFIX, .REPNZ_PREFIX, .REPZ_PREFIX]

/-- The x86 number of the segment register an override selects (ES = 0, CS = 1, SS = 2,
DS = 3); `none` for `NO_OVERRIDE`. -/
def x86_seg_override.sreg : x86_seg_override → Option Nat
  | .NO_OVERRIDE => none
  | .ES_OVERRIDE => some 0
  | .CS_OVERRIDE => some 1
  | .SS_OVERRIDE => some 2
  | .DS_OVERRIDE => some 3

/-- The C truth value of the `lock_prefix` field of a record. -/
def has_lock (r : x86_instr) : Bool := decide ( x86_instr.lock_prefix r ≠ 0)

/-- Every enumerator of `enum x86_addmode` is listed in `all_addmodes`. -/
theorem mem_all_addmodes (m : x86_addmode) : m ∈ all_addmodes := by
  cases m <;> decide

/-! ## Source and destination facets of the addressing modes -/

/-- C1 (as stated, refuted): `ADDMODE_RM_REG = DST_REG|MOD_RM` does not have exactly one
source facet and exactly one destination facet: it has no bit of `SRC_MASK` at all. -/
theorem addmode_rm_reg_not_one_src_one_dst :
    ¬ (bit_count (x86_addmode.ADDMODE_RM_REG.val &&& SRC_MASK) = 1 ∧
       bit_count (x86_addmode.ADDMODE_RM_REG.val &&& DST_MASK) = 1) := by
  decide

/-- C1 (amended): every addressing mode without `MOD_RM` has exactly one source facet and
exactly one destination facet; the modes with `MOD_RM` are `ADDMODE_IMM8_RM`,
`ADDMODE_REG_RM` and `ADDMODE_RM_REG`, the first two have exactly one source facet and no
destination facet, the third exactly one destination facet and no source facet. -/
theorem addmode_facet_partition :
    (∀ m : x86_addmode, m.val &&& MOD_RM = 0 →
      bit_count (m.val &&& SRC_MASK) = 1 ∧ bit_count (m.val &&& DST_MASK) = 1) ∧
    all_addmodes.filter (fun m => decide (m.val &&& MOD_RM ≠ 0)) =
      [.ADDMODE_IMM8_RM, .ADDMODE_REG_RM, .ADDMODE_RM_REG] ∧
    (bit_count (x86_addmode.ADDMODE_IMM8_RM.val &&& SRC_MASK) = 1 ∧
      bit_count (x86_addmode.ADDMODE_IMM8_RM.val &&& DST_MASK) = 0) ∧
    (bit_count (x86_addmode.ADDMODE_REG_RM.val &&& SRC_MASK) = 1 ∧
      bit_count (x86_addmode.ADDMODE_REG_RM.val &&& DST_MASK) = 0) ∧
    (bit_count (x86_addmode.ADDMODE_RM_REG.val &&& SRC_MASK) = 0 ∧
      bit_count (x86_addmode.ADDMODE_RM_REG.val &&& DST_MASK) = 1) := by
  refine ⟨?_, by decide, by decide, by decide, by decide⟩
  intro m
  cases m <;> decide

/-- C1 (amended) at `ADDMODE_IMM_REG = SRC_IMM|DST_REG`, a mode without `MOD_RM`: one source
facet and one destination facet. -/
theorem addmode_facet_partition_witness :
    x86_addmode.ADDMODE_IMM_REG.val &&& MOD_RM = 0 ∧
    bit_count (x86_addmode.ADDMODE_IMM_REG.val &&& SRC_MASK) = 1 ∧
    bit_count (x86_addmode.ADDMODE_IMM_REG.val &&& DST_MASK) = 1 :=
  ⟨by decide, addmode_facet_partition.1 .ADDMODE_IMM_REG (by decide)⟩

/-- C2: no addressing mode claims two sources or two destinations: for each of the
thirteen modes at most one bit of `SRC_MASK` and at most one bit of `DST_MASK` is set; no
mode sets both `SRC_IMM` and `SRC_IMM8`, and no mode sets both a bit of `IMM_MASK` and the
bit of `REL_MASK`. -/
theorem addmode_at_most_one_src_one_dst (m : x86_addmode) :
    bit_count (m.val &&& SRC_MASK) ≤ 1 ∧ bit_count (m.val &&& DST_MASK) ≤ 1 ∧
    ¬ (m.val &&& SRC_IMM ≠ 0 ∧ m.val &&& SRC_IMM8 ≠ 0) ∧
    ¬ (m.val &&& IMM_MASK ≠ 0 ∧ m.val &&& REL_MASK ≠ 0) := by
  cases m <;> decide


/-! ## Length consistency -/

/-- The single-flag constants are the powers of two from bit 8 to bit 30. -/
theorem single_flags_eq_pows :
    single_flags = (List.range 23).map (fun i => 2 ^ (i + 8)) := by
  decide

/-- C4: the 23 single-flag constants of `enum x86_instr_flags` are pairwise distinct
powers of two; `SRC_MASK` is the OR of the 11 source flags and `DST_MASK` the OR of the 7
destination flags; and `SRC_MASK`, `DST_MASK`, `WIDTH_MASK`, `GROUP_MASK`, `MOD_RM` and
`DIR_REVERSED` are pairwise disjoint. -/
theorem flags_disjoint_and_covered :
    single_flags.length = 23 ∧ src_flags.length = 11 ∧ dst_flags.length = 7 ∧
    single_flags.Pairwise (fun a b => a ≠ b) ∧
    (∀ f ∈ single_flags, ∃ k, f = 2 ^ k) ∧
    SRC_MASK = src_flags.foldl (fun a b => a ||| b) 0 ∧
    DST_MASK = dst_flags.foldl (fun a b => a ||| b) 0 ∧
    facet_masks.Pairwise (fun a b => a &&& b = 0) := by
  refine ⟨by decide, by decide, by decide, by decide, ?_, by decide, by decide, by decide⟩
  intro f hf
  rw [single_flags_eq_pows, List.mem_map] at hf
  obtain ⟨i, _, hi⟩ := hf
  exact ⟨i + 8, hi.symm⟩

theorem and_or_right (a b M : Nat) : (a ||| b) &&& M = (a &&& M) ||| (b &&& M) := by
  rw [Nat.and_comm, Nat.and_or_distrib_left, Nat.and_comm M a, Nat.and_comm M b]

/-- A value below 256 has no bit in common with the flag bits 8 to 30. -/
theorem low_byte_and_flag_bits : ∀ t : Nat, t < 256 → t &&& 0x7FFFFF00 = 0 := by
  decide

theorem low_byte_and_high {t M : Nat} (ht : t < 256) (hM : 0x7FFFFF00 &&& M = M) :
    t &&& M = 0 := by
  rw [← hM, ← Nat.and_assoc, low_byte_and_flag_bits t ht, Nat.zero_and]

theorem low_byte_and_ff {t : Nat} (ht : t < 256) : t &&& 0xFF = t := by
  have h := Nat.and_pow_two_sub_one_eq_mod t 8
  have h8 : (2 : Nat) ^ 8 - 1 = 0xFF := by decide
  rw [h8] at h
  rw [h]
  exact Nat.mod_eq_of_lt ht

/-- Under a mask of flag bits the type tag of a flags word disappears. -/
theorem pack_and_high {a t g M : Nat} (ht : t < 256) (hM : 0x7FFFFF00 &&& M = M) :
    (a ||| t ||| g) &&& M = (a ||| g) &&& M := by
  rw [and_or_right, and_or_right, low_byte_and_high ht hM, Nat.or_zero, ← and_or_right]

/-- Under the mask `0xFF` only the type tag of a flags word remains. -/
theorem pack_and_low {a t g : Nat} (ht : t < 256) (ha : a &&& 0xFF = 0)
    (hg : g &&& 0xFF = 0) : (a ||| t ||| g) &&& 0xFF = t := by
  rw [and_or_right, and_or_right, ha, hg, Nat.zero_or, Nat.or_zero, low_byte_and_ff ht]

/-- The mode bits of a packed flags word are the addressing mode. -/
theorem pack_flags_mode (m : x86_addmode) (w t g : Nat)
    (hw : w = WIDTH_BYTE ∨ w = WIDTH_FULL) (ht : t < 256) (hg : g = 0 ∨ g = GROUP_2) :
    pack_flags m w t g &&& ADDMODE_BITS = m.val := by
  unfold pack_flags
  rw [pack_and_high ht (by decide)]
  rcases hw with rfl | rfl <;> rcases hg with rfl | rfl <;> cases m <;> decide

/-- C5: a flags word packs mode, width, instruction type and group marker without loss.
For every addressing mode `m`, width `w` in `WIDTH_BYTE`, `WIDTH_FULL`, type tag `t < 256`
and group marker `g` in `0`, `GROUP_2`, the word `f = m | w | t | g` gives back `m` under
`SRC_MASK | DST_MASK | MOD_RM | DIR_REVERSED`, `w` under `WIDTH_MASK`, `t` under `0xFF` and
`g` under `GROUP_MASK`. -/
theorem pack_flags_lossless (m : x86_addmode) (w t g : Nat)
    (hw : w = WIDTH_BYTE ∨ w = WIDTH_FULL) (ht : t < 256) (hg : g = 0 ∨ g = GROUP_2) :
    pack_flags m w t g = m.val ||| w ||| t ||| g ∧
    pack_flags m w t g &&& (SRC_MASK ||| DST_MASK ||| MOD_RM ||| DIR_REVERSED) = m.val ∧
    pack_flags m w t g &&& WIDTH_MASK = w ∧
    pack_flags m w t g &&& 0xFF = t ∧
    pack_flags m w t g &&& GROUP_MASK = g := by
  refine ⟨rfl, pack_flags_mode m w t g hw ht hg, ?_, ?_, ?_⟩
  · unfold pack_flags
    rw [pack_and_high ht (by decide)]
    rcases hw with rfl | rfl <;> rcases hg with rfl | rfl <;> cases m <;> decide
  · unfold pack_flags
    apply pack_and_low ht
    · rcases hw with rfl | rfl <;> cases m <;> decide
    · rcases hg with rfl | rfl <;> decide
  · unfold pack_flags
    rw [pack_and_high ht (by decide)]
    rcases hw with rfl | rfl <;> rcases hg with rfl | rfl <;> cases m <;> decide

/-- C5 at `ADDMODE_IMM_REG`, `WIDTH_FULL`, type tag 1 and no group marker: the word is
`0x1002801`. -/
theorem pack_flags_lossless_witness :
    pack_flags .ADDMODE_IMM_REG WIDTH_FULL 1 0 = 0x1002801 ∧
    (pack_flags .ADDMODE_IMM_REG WIDTH_FULL 1 0 =
        x86_addmode.ADDMODE_IMM_REG.val ||| WIDTH_FULL ||| 1 ||| 0 ∧
      pack_flags .ADDMODE_IMM_REG WIDTH_FULL 1 0
          &&& (SRC_MASK ||| DST_MASK ||| MOD_RM ||| DIR_REVERSED)
        = x86_addmode.ADDMODE_IMM_REG.val ∧
      pack_flags .ADDMODE_IMM_REG WIDTH_FULL 1 0 &&& WIDTH_MASK = WIDTH_FULL ∧
      pack_flags .ADDMODE_IMM_REG WIDTH_FULL 1 0 &&& 0xFF = 1 ∧
      pack_flags .ADDMODE_IMM_REG WIDTH_FULL 1 0 &&& GROUP_MASK = 0) :=
  ⟨by decide,
    pack_flags_lossless .ADDMODE_IMM_REG WIDTH_FULL 1 0 (Or.inr rfl) (by decide) (Or.inl rfl)⟩

/-- C6: each flags word identifies exactly one addressing mode.  The thirteen values of
`enum x86_addmode` are pairwise distinct, no mode's bit set is contained in another's, and
for a word `f = m | w | t | g` built from a mode `m` the test `(f & x) == x` over the
thirteen modes `x` succeeds for `x = m` only. -/
theorem addmode_identified :
    all_addmodes.length = 13 ∧
    (all_addmodes.map x86_addmode.val).Pairwise (fun a b => a ≠ b) ∧
    (∀ a b : x86_addmode, a ≠ b → a.val ≠ b.val ∧ a.val &&& b.val ≠ a.val) ∧
    (∀ (m x : x86_addmode) (w t g : Nat), (w = WIDTH_BYTE ∨ w = WIDTH_FULL) → t < 256 →
      (g = 0 ∨ g = GROUP_2) → (pack_flags m w t g &&& x.val = x.val ↔ x = m)) := by
  refine ⟨by decide, by decide, ?_, ?_⟩
  · intro a b
    cases a <;> cases b <;> decide
  · intro m x w t g hw ht hg
    have hx : ADDMODE_BITS &&& x.val = x.val := by cases x <;> decide
    have hf : pack_flags m w t g &&& x.val = m.val &&& x.val :=
      calc pack_flags m w t g &&& x.val
          = pack_flags m w t g &&& (ADDMODE_BITS &&& x.val) := by rw [hx]
        _ = (pack_flags m w t g &&& ADDMODE_BITS) &&& x.val := (Nat.and_assoc _ _ _).symm
        _ = m.val &&& x.val := by rw [pack_flags_mode m w t g hw ht hg]
    rw [hf]
    cases m <;> cases x <;> decide

/-- C6 at the word of `ADDMODE_REG_RM`, `WIDTH_BYTE`, type tag 7 and `GROUP_2`: the test
succeeds for `ADDMODE_REG_RM` and fails for `ADDMODE_RM_REG`. -/
theorem addmode_identified_witness :
    pack_flags .ADDMODE_REG_RM WIDTH_BYTE 7 GROUP_2 &&& x86_addmode.ADDMODE_REG_RM.val
      = x86_addmode.ADDMODE_REG_RM.val ∧
    pack_flags .ADDMODE_REG_RM WIDTH_BYTE 7 GROUP_2 &&& x86_addmode.ADDMODE_RM_REG.val
      ≠ x86_addmode.ADDMODE_RM_REG.val :=
  ⟨(addmode_identified.2.2.2 .ADDMODE_REG_RM .ADDMODE_REG_RM WIDTH_BYTE 7 GROUP_2
      (Or.inl rfl) (by decide) (Or.inr rfl)).2 rfl,
   fun h => absurd
     ((addmode_identified.2.2.2 .ADDMODE_REG_RM .ADDMODE_RM_REG WIDTH_BYTE 7 GROUP_2
      (Or.inl rfl) (by decide) (Or.inr rfl)).1 h) (by decide)⟩

/-! ## ModRM, direction and the open facet -/

/-- C7: accumulator and memory-offset modes never read a ModRM byte.  An addressing mode
that has `SRC_ACC`, `DST_ACC`, `SRC_MOFFSET` or `DST_MOFFSET` set is one of
`ADDMODE_ACC_MOFFSET`, `ADDMODE_ACC_REG`, `ADDMODE_IMM_ACC`, `ADDMODE_MOFFSET_ACC`, and has
the `MOD_RM` bit clear and the `DIR_REVERSED` bit clear. -/
theorem acc_moffset_modes_without_modrm (m : x86_addmode)
    (h : m.val &&& (SRC_ACC ||| DST_ACC ||| SRC_MOFFSET ||| DST_MOFFSET) ≠ 0) :
    m ∈ [x86_addmode.ADDMODE_ACC_MOFFSET, .ADDMODE_ACC_REG, .ADDMODE_IMM_ACC,
      .ADDMODE_MOFFSET_ACC] ∧
    m.val &&& MOD_RM = 0 ∧ m.val &&& DIR_REVERSED = 0 := by
  revert h
  cases m <;> decide

/-- C7 on the four modes: each of `ADDMODE_ACC_MOFFSET`, `ADDMODE_ACC_REG`,
`ADDMODE_IMM_ACC` and `ADDMODE_MOFFSET_ACC` has an accumulator or memory-offset facet, and
so has `MOD_RM` and `DIR_REVERSED` clear. -/
theorem acc_moffset_modes_without_modrm_witness :
    all_addmodes.filter
        (fun m => decide (m.val &&& (SRC_ACC ||| DST_ACC ||| SRC_MOFFSET ||| DST_MOFFSET) ≠ 0))
      = [.ADDMODE_ACC_MOFFSET, .ADDMODE_ACC_REG, .ADDMODE_IMM_ACC, .ADDMODE_MOFFSET_ACC] ∧
    (x86_addmode.ADDMODE_ACC_MOFFSET.val &&& MOD_RM = 0 ∧
      x86_addmode.ADDMODE_ACC_MOFFSET.val &&& DIR_REVERSED = 0) ∧
    (x86_addmode.ADDMODE_ACC_REG.val &&& MOD_RM = 0 ∧
      x86_addmode.ADDMODE_ACC_REG.val &&& DIR_REVERSED = 0) ∧
    (x86_addmode.ADDMODE_IMM_ACC.val &&& MOD_RM = 0 ∧
      x86_addmode.ADDMODE_IMM_ACC.val &&& DIR_REVERSED = 0) ∧
    (x86_addmode.ADDMODE_MOFFSET_ACC.val &&& MOD_RM = 0 ∧
      x86_addmode.ADDMODE_MOFFSET_ACC.val &&& DIR_REVERSED = 0) :=
  ⟨by decide,
   (acc_moffset_modes_without_modrm .ADDMODE_ACC_MOFFSET (by decide)).2,
   (acc_moffset_modes_without_modrm .ADDMODE_ACC_REG (by decide)).2,
   (acc_moffset_modes_without_modrm .ADDMODE_IMM_ACC (by decide)).2,
   (acc_moffset_modes_without_modrm .ADDMODE_MOFFSET_ACC (by decide)).2⟩

/-- C8 (as stated, refuted): the three displacement classes of a memory operand cannot
each have a tag of their own among the memory tags of `enum x86_operand_type`: every
assignment of the classes to `OP_MEM` and `OP_MEM_DISP` gives two classes the same tag. -/
theorem no_three_memory_operand_tags :
    ¬ ∃ tag : disp_class → x86_operand_type,
      (∀ c, tag c ∈ memory_operand_types) ∧ Function.Injective tag := by
  rintro ⟨tag, hmem, hinj⟩
  have h0 := hmem .none
  have h1 := hmem .byte
  have h2 := hmem .full
  simp only [memory_operand_types, List.mem_cons, List.mem_singleton, List.not_mem_nil,
    or_false] at h0 h1 h2
  have e01 : tag .none ≠ tag .byte := fun e => by cases hinj e
  have e02 : tag .none ≠ tag .full := fun e => by cases hinj e
  have e12 : tag .byte ≠ tag .full := fun e => by cases hinj e
  rcases h0 with a | a <;> rcases h1 with b | b <;> rcases h2 with c | c <;>
    rw [a, b] at e01 <;> rw [a, c] at e02 <;> rw [b, c] at e12 <;> contradiction

/-- C8 (amended): the tag of a memory operand is a closed, mutually exclusive choice of
two.  `enum x86_operand_type` has six tags with the values 0 to 5; exactly two of them
denote a memory operand, `OP_MEM` (value 1, no displacement) and `OP_MEM_DISP` (value 2,
displacement), and they differ; the byte and full displacement classes have no tag of
their own and are told apart by the flags, where `SRC_MEM`, `SRC_MEM_DISP_BYTE`,
`SRC_MEM_DISP_FULL` are three different bits, and so are `DST_MEM`, `DST_MEM_DISP_BYTE`,
`DST_MEM_DISP_FULL`. -/
theorem memory_operand_tags :
    (∀ t : x86_operand_type, t ∈ all_operand_types) ∧
    all_operand_types.map x86_operand_type.val = [0, 1, 2, 3, 4, 5] ∧
    memory_operand_types = [.OP_MEM, .OP_MEM_DISP] ∧
    x86_operand_type.OP_MEM.val = 1 ∧ x86_operand_type.OP_MEM_DISP.val = 2 ∧
    x86_operand_type.OP_MEM ≠ x86_operand_type.OP_MEM_DISP ∧
    (∀ tag : disp_class → x86_operand_type, (∀ c, tag c ∈ memory_operand_types) →
      ∃ c d, c ≠ d ∧ tag c = tag d) ∧
    [SRC_MEM, SRC_MEM_DISP_BYTE, SRC_MEM_DISP_FULL].Pairwise (fun a b => a &&& b = 0 ∧ a ≠ b) ∧
    [DST_MEM, DST_MEM_DISP_BYTE, DST_MEM_DISP_FULL].Pairwise (fun a b => a &&& b = 0 ∧ a ≠ b) := by
  refine ⟨fun t => by cases t <;> decide, rfl, rfl, rfl, rfl, by decide, ?_, by decide,
    by decide⟩
  intro tag hmem
  have h0 := hmem .none
  have h1 := hmem .byte
  have h2 := hmem .full
  simp only [memory_operand_types, List.mem_cons, List.mem_singleton, List.not_mem_nil,
    or_false] at h0 h1 h2
  rcases h0 with a | a <;> rcases h1 with b | b <;> rcases h2 with c | c
  · exact ⟨.none, .byte, by decide, by rw [a, b]⟩
  · exact ⟨.none, .byte, by decide, by rw [a, b]⟩
  · exact ⟨.none, .full, by decide, by rw [a, c]⟩
  · exact ⟨.byte, .full, by decide, by rw [b, c]⟩
  · exact ⟨.byte, .full, by decide, by rw [b, c]⟩
  · exact ⟨.none, .full, by decide, by rw [a, c]⟩
  · exact ⟨.none, .byte, by decide, by rw [a, b]⟩
  · exact ⟨.none, .byte, by decide, by rw [a, b]⟩

/-- C9: ModRM and direction are tied to the facet a mode leaves open.  For every
addressing mode, `MOD_RM` is set if and only if the mode lacks a source facet or lacks a
destination facet; `DIR_REVERSED` is set only together with `MOD_RM`; the `MOD_RM` modes
with `DIR_REVERSED` are `ADDMODE_IMM8_RM` and `ADDMODE_REG_RM`, which have a source facet
and no destination facet; the `MOD_RM` mode without `DIR_REVERSED` is `ADDMODE_RM_REG`,
which has a destination facet and no source facet. -/
theorem modrm_tied_to_open_facet :
    (∀ m : x86_addmode,
      (m.val &&& MOD_RM ≠ 0 ↔ (m.val &&& SRC_MASK = 0 ∨ m.val &&& DST_MASK = 0)) ∧
      (m.val &&& DIR_REVERSED ≠ 0 → m.val &&& MOD_RM ≠ 0) ∧
      (m.val &&& MOD_RM ≠ 0 → m.val &&& DIR_REVERSED ≠ 0 →
        bit_count (m.val &&& SRC_MASK) = 1 ∧ m.val &&& DST_MASK = 0) ∧
      (m.val &&& MOD_RM ≠ 0 → m.val &&& DIR_REVERSED = 0 →
        bit_count (m.val &&& DST_MASK) = 1 ∧ m.val &&& SRC_MASK = 0)) ∧
    all_addmodes.filter
        (fun m => decide (m.val &&& MOD_RM ≠ 0 ∧ m.val &&& DIR_REVERSED ≠ 0))
      = [.ADDMODE_IMM8_RM, .ADDMODE_REG_RM] ∧
    all_addmodes.filter
        (fun m => decide (m.val &&& MOD_RM ≠ 0 ∧ m.val &&& DIR_REVERSED = 0))
      = [.ADDMODE_RM_REG] := by
  refine ⟨fun m => ?_, by decide, by decide⟩
  cases m <;> decide

/-- C9 at `ADDMODE_REG_RM` (with `DIR_REVERSED`) and at `ADDMODE_RM_REG` (without): the
former has its source facet only, the latter its destination facet only. -/
theorem modrm_tied_to_open_facet_witness :
    (bit_count (x86_addmode.ADDMODE_REG_RM.val &&& SRC_MASK) = 1 ∧
      x86_addmode.ADDMODE_REG_RM.val &&& DST_MASK = 0) ∧
    (bit_count (x86_addmode.ADDMODE_RM_REG.val &&& DST_MASK) = 1 ∧
      x86_addmode.ADDMODE_RM_REG.val &&& SRC_MASK = 0) :=
  ⟨(modrm_tied_to_open_facet.1 .ADDMODE_REG_RM).2.2.1 (by decide) (by decide),
   (modrm_tied_to_open_facet.1 .ADDMODE_RM_REG).2.2.2 (by decide) (by decide)⟩

/-- C10: resolving the ModRM operand completes a mode to exactly one source and one
destination.  No addressing mode contains a bit of `MEM_DISP_MASK`; for a `MOD_RM` mode
with `DIR_REVERSED` and a destination facet `f` of a ModRM byte, and for a `MOD_RM` mode
without `DIR_REVERSED` and a source facet `f` of a ModRM byte, `m | f` has exactly one bit
in `SRC_MASK` and exactly one in `DST_MASK`; and for the three memory choices of `f`,
`(m | f) & ~MEM_DISP_MASK = m`, the complement taken on 32 or on 64 bits. -/
theorem modrm_facet_completes_mode :
    (∀ m : x86_addmode, m.val &&& MEM_DISP_MASK = 0) ∧
    (∀ m : x86_addmode, m.val &&& MOD_RM ≠ 0 → m.val &&& DIR_REVERSED ≠ 0 →
      ∀ f ∈ modrm_dst_facets,
        bit_count ((m.val ||| f) &&& SRC_MASK) = 1 ∧
        bit_count ((m.val ||| f) &&& DST_MASK) = 1 ∧
        (f ≠ DST_REG → (m.val ||| f) &&& bit_not 32 MEM_DISP_MASK = m.val ∧
          (m.val ||| f) &&& bit_not 64 MEM_DISP_MASK = m.val)) ∧
    (∀ m : x86_addmode, m.val &&& MOD_RM ≠ 0 → m.val &&& DIR_REVERSED = 0 →
      ∀ f ∈ modrm_src_facets,
        bit_count ((m.val ||| f) &&& SRC_MASK) = 1 ∧
        bit_count ((m.val ||| f) &&& DST_MASK) = 1 ∧
        (f ≠ SRC_REG → (m.val ||| f) &&& bit_not 32 MEM_DISP_MASK = m.val ∧
          (m.val ||| f) &&& bit_not 64 MEM_DISP_MASK = m.val)) ∧
    modrm_dst_facets = [DST_REG, DST_MEM, DST_MEM_DISP_BYTE, DST_MEM_DISP_FULL] ∧
    modrm_src_facets = [SRC_REG, SRC_MEM, SRC_MEM_DISP_BYTE, SRC_MEM_DISP_FULL] := by
  refine ⟨fun m => ?_, fun m => ?_, fun m => ?_, rfl, rfl⟩
  · cases m <;> decide
  · cases m <;> decide
  · cases m <;> decide

/-- C10 at `ADDMODE_REG_RM` completed by `DST_MEM_DISP_BYTE` and at `ADDMODE_RM_REG`
completed by `SRC_MEM`: one source and one destination facet each, and clearing
`MEM_DISP_MASK` gives the mode back. -/
theorem modrm_facet_completes_mode_witness :
    (bit_count ((x86_addmode.ADDMODE_REG_RM.val ||| DST_MEM_DISP_BYTE) &&& SRC_MASK) = 1 ∧
      bit_count ((x86_addmode.ADDMODE_REG_RM.val ||| DST_MEM_DISP_BYTE) &&& DST_MASK) = 1 ∧
      (x86_addmode.ADDMODE_REG_RM.val ||| DST_MEM_DISP_BYTE) &&& bit_not 32 MEM_DISP_MASK
        = x86_addmode.ADDMODE_REG_RM.val) ∧
    (bit_count ((x86_addmode.ADDMODE_RM_REG.val ||| SRC_MEM) &&& SRC_MASK) = 1 ∧
      bit_count ((x86_addmode.ADDMODE_RM_REG.val ||| SRC_MEM) &&& DST_MASK) = 1 ∧
      (x86_addmode.ADDMODE_RM_REG.val ||| SRC_MEM) &&& bit_not 64 MEM_DISP_MASK
        = x86_addmode.ADDMODE_RM_REG.val) :=
  have hd := modrm_facet_completes_mode.2.1 .ADDMODE_REG_RM (by decide) (by decide)
    DST_MEM_DISP_BYTE (by decide)
  have hs := modrm_facet_completes_mode.2.2.1 .ADDMODE_RM_REG (by decide) (by decide)
    SRC_MEM (by decide)
  ⟨⟨hd.1, hd.2.1, (hd.2.2 (by decide)).1⟩, ⟨hs.1, hs.2.1, (hs.2.2 (by decide)).2⟩⟩

/-! ## Absent operands -/

/-- C11: the implied mode is the only mode without operands.  `ADDMODE_IMPLIED` has the
source facet `SRC_NONE` and the destination facet `DST_NONE`; it is the only addressing
mode with `SRC_NONE` set; and the modes with `DST_NONE` set are exactly `ADDMODE_IMM`,
`ADDMODE_IMPLIED`, `ADDMODE_REG`, `ADDMODE_SEG_REG` and `ADDMODE_REL`. -/
theorem implied_only_mode_without_operands :
    x86_addmode.ADDMODE_IMPLIED.val &&& SRC_MASK = SRC_NONE ∧
    x86_addmode.ADDMODE_IMPLIED.val &&& DST_MASK = DST_NONE ∧
    (∀ m : x86_addmode, m.val &&& SRC_NONE ≠ 0 ↔ m = .ADDMODE_IMPLIED) ∧
    (∀ m : x86_addmode, m.val &&& DST_NONE ≠ 0 ↔
      m ∈ [x86_addmode.ADDMODE_IMM, .ADDMODE_IMPLIED, .ADDMODE_REG, .ADDMODE_SEG_REG,
        .ADDMODE_REL]) ∧
    (∀ m : x86_addmode, (m.val &&& SRC_NONE ≠ 0 ∧ m.val &&& DST_NONE ≠ 0) ↔
      m = .ADDMODE_IMPLIED) ∧
    all_addmodes.filter (fun m => decide (m.val &&& SRC_NONE ≠ 0)) = [.ADDMODE_IMPLIED] ∧
    all_addmodes.filter (fun m => decide (m.val &&& DST_NONE ≠ 0)) =
      [.ADDMODE_IMM, .ADDMODE_IMPLIED, .ADDMODE_REG, .ADDMODE_SEG_REG, .ADDMODE_REL] := by
  refine ⟨by decide, by decide, fun m => ?_, fun m => ?_, fun m => ?_, by decide, by decide⟩
  · cases m <;> decide
  · cases m <;> decide
  · cases m <;> decide

/-! ## Prefix selections -/

/-- C12: the prefix selections have their "none" as zero value and follow the
segment-register order.  `NO_OVERRIDE`, `ES_OVERRIDE`, `CS_OVERRIDE`, `SS_OVERRIDE`,
`DS_OVERRIDE` are 0, 1, 2, 3, 4, pairwise distinct, each override being its
segment-register number plus one; `NO_PREFIX`, `REPNZ_PREFIX`, `REPZ_PREFIX` are 0, 1, 2;
and a record whose `seg_override`, `rep_prefix` and `lock_prefix` fields are all zero has
no segment override, no repeat prefix and no lock prefix. -/
theorem prefix_selections_zero_is_none :
    (∀ s : x86_seg_override, s ∈ all_seg_overrides) ∧
    all_seg_overrides.map x86_seg_override.val = [0, 1, 2, 3, 4] ∧
    (all_seg_overrides.map x86_seg_override.val).Pairwise (fun a b => a ≠ b) ∧
    (x86_seg_override.NO_OVERRIDE.val = 0 ∧ x86_seg_override.ES_OVERRIDE.val = 1 ∧
      x86_seg_override.CS_OVERRIDE.val = 2 ∧ x86_seg_override.SS_OVERRIDE.val = 3 ∧
      x86_seg_override.DS_OVERRIDE.val = 4) ∧
    all_seg_overrides.map x86_seg_override.sreg = [none, some 0, some 1, some 2, some 3] ∧
    (∀ (s : x86_seg_override) (k : Nat), s.sreg = some k → s.val = k + 1) ∧
    (∀ p : x86_rep_prefix, p ∈ all_rep_prefixes) ∧
    all_rep_prefixes.map x86_rep_prefix.val = [0, 1, 2] ∧
    ( x86_rep_prefix.NO_PREFIX.val = 0 ∧ x86_rep_prefix.REPNZ_PREFIX.val = 1 ∧
      x86_rep_prefix.REPZ_PREFIX.val = 2) ∧
    (∀ r : x86_instr, r.seg_override.val = 0 → x86_rep_prefix.val ( x86_instr.rep_prefix r) = 0 →
      x86_instr.lock_prefix r = 0 →
      r.seg_override = .NO_OVERRIDE ∧ x86_instr.rep_prefix r = .NO_PREFIX ∧
        has_lock r = false) := by
  refine ⟨fun s => by cases s <;> decide, rfl, by decide, ⟨rfl, rfl, rfl, rfl, rfl⟩, rfl, ?_,
    fun p => by cases p <;> decide, rfl, ⟨rfl, rfl, rfl⟩, ?_⟩
  · intro s k h
    cases s <;> simp [x86_seg_override.sreg] at h <;> subst h <;> rfl
  · intro r hs hp hl
    refine ⟨?_, ?_, ?_⟩
    · revert hs
      cases r.seg_override <;> simp [x86_seg_override.val]
    · revert hp
      cases x86_instr.rep_prefix r <;> simp [ x86_rep_prefix.val]
    · simp [has_lock, hl]

/-- C12 at the record `sample_mov`, whose three prefix fields are zero: it has no segment
override, no repeat prefix and no lock prefix. -/
theorem prefix_selections_zero_is_none_witness :
    sample_mov.seg_override = .NO_OVERRIDE ∧ x86_instr.rep_prefix sample_mov = .NO_PREFIX ∧
      has_lock sample_mov = false :=
  prefix_selections_zero_is_none.2.2.2.2.2.2.2.2.2 sample_mov rfl rfl rfl

/-! ## Storage of the flag values -/

/-- Folding `|` over words that lie inside a mask stays inside the mask. -/
theorem foldl_or_inside (M : Nat) :
    ∀ (l : List Nat) (acc : Nat), acc &&& M = acc → (∀ x ∈ l, x &&& M = x) →
      l.foldl (fun a b => a ||| b) acc &&& M = l.foldl (fun a b => a ||| b) acc := by
  intro l
  induction l with
  | nil => intro acc hacc _; simpa using hacc
  | cons y ys ih =>
    intro acc hacc hl
    rw [List.foldl_cons]
    apply ih
    · rw [and_or_right, hacc, hl y (List.mem_cons_self y ys)]
    · intro x hx
      exact hl x (List.mem_cons_of_mem y hx)

/-- The OR of words inside a mask is inside the mask. -/
theorem or_all_inside (M : Nat) (l : List Nat) (h : ∀ x ∈ l, x &&& M = x) :
    or_all l &&& M = or_all l :=
  foldl_or_inside M l 0 (Nat.zero_and M) h

/-- A word inside the flag bits 8 to 30 is below `2 ^ 31` and has its low byte clear. -/
theorem inside_flag_bits {x : Nat} (h : x &&& 0x7FFFFF00 = x) :
    x < 2 ^ 31 ∧ x &&& 0xFF = 0 := by
  constructor
  · have h1 : x &&& 0x7FFFFF00 ≤ 0x7FFFFF00 := Nat.and_le_right
    rw [h] at h1
    omega
  · have h2 : (0x7FFFFF00 : Nat) &&& 0xFF = 0 := by decide
    rw [← h, Nat.and_assoc, h2, Nat.and_zero]

/-- Every enumerator of `enum x86_instr_flags` and of `enum x86_addmode` lies inside the
flag bits 8 to 30. -/
theorem constants_inside_flag_bits :
    ∀ x, x ∈ all_instr_flags ∨ x ∈ all_addmodes.map x86_addmode.val →
      x &&& 0x7FFFFF00 = x := by
  have h1 : ∀ x ∈ all_instr_flags, x &&& 0x7FFFFF00 = x := by decide
  have h2 : ∀ x ∈ all_addmodes.map x86_addmode.val, x &&& 0x7FFFFF00 = x := by decide
  intro x hx
  rcases hx with hx | hx
  · exact h1 x hx
  · exact h2 x hx

/-- C13: every flag value fits the storage it is given.  The OR of all enumerators of
`enum x86_instr_flags` is `0x7FFFFF00`, the bits 8 to 30, each of which is the bit of
exactly one single flag; so every enumerator of `enum x86_instr_flags` and of
`enum x86_addmode`, and every OR of such enumerators, is below `2 ^ 31` and has its low 8
bits clear. -/
theorem flag_values_fit_storage :
    all_instr_flags.length = 31 ∧
    or_all all_instr_flags = 0x7FFFFF00 ∧
    (0x7FFFFF00 : Nat) = ((List.range 23).map (fun i => 2 ^ (i + 8))).sum ∧
    (∀ i ∈ List.range 23, single_flags.countP (fun f => f.testBit (i + 8)) = 1) ∧
    (∀ f ∈ single_flags, f ∈ all_instr_flags) ∧
    (∀ x, x ∈ all_instr_flags ∨ x ∈ all_addmodes.map x86_addmode.val →
      x < 2 ^ 31 ∧ x < 2 ^ 64 ∧ x &&& 0xFF = 0) ∧
    (∀ l : List Nat, (∀ x ∈ l, x ∈ all_instr_flags ∨ x ∈ all_addmodes.map x86_addmode.val) →
      or_all l < 2 ^ 31 ∧ or_all l < 2 ^ 64 ∧ or_all l &&& 0xFF = 0) := by
  refine ⟨by decide, by decide, by decide, by decide, by decide, ?_, ?_⟩
  · intro x hx
    obtain ⟨h1, h2⟩ := inside_flag_bits (constants_inside_flag_bits x hx)
    exact ⟨h1, by omega, h2⟩
  · intro l hl
    have h := or_all_inside 0x7FFFFF00 l (fun x hx => constants_inside_flag_bits x (hl x hx))
    obtain ⟨h1, h2⟩ := inside_flag_bits h
    exact ⟨h1, by omega, h2⟩

/-- C13 at the OR of `ADDMODE_REG_RM`, `WIDTH_FULL`, `DST_MEM_DISP_BYTE` and `GROUP_2`: the
word is `0x50010B00`, below `2 ^ 31`, with its low 8 bits clear. -/
theorem flag_values_fit_storage_witness :
    or_all [x86_addmode.ADDMODE_REG_RM.val, WIDTH_FULL, DST_MEM_DISP_BYTE, GROUP_2]
      = 0x50010B00 ∧
    (or_all [x86_addmode.ADDMODE_REG_RM.val, WIDTH_FULL, DST_MEM_DISP_BYTE, GROUP_2] < 2 ^ 31 ∧
      or_all [x86_addmode.ADDMODE_REG_RM.val, WIDTH_FULL, DST_MEM_DISP_BYTE, GROUP_2] < 2 ^ 64 ∧
      or_all [x86_addmode.ADDMODE_REG_RM.val, WIDTH_FULL, DST_MEM_DISP_BYTE, GROUP_2]
        &&& 0xFF = 0) :=
  ⟨by decide,
   flag_values_fit_storage.2.2.2.2.2.2
     [x86_addmode.ADDMODE_REG_RM.val, WIDTH_FULL, DST_MEM_DISP_BYTE, GROUP_2] (by decide)⟩

/-- C14: `MEM_DISP_MASK` selects exactly the ModRM memory forms on both sides.  It is the
OR of `SRC_MEM`, `SRC_MEM_DISP_BYTE`, `SRC_MEM_DISP_FULL`, `DST_MEM`, `DST_MEM_DISP_BYTE`
and `DST_MEM_DISP_FULL` (the no-displacement forms included) and of no other single flag,
it is contained in `SRC_MASK | DST_MASK`, and it is disjoint from `MOFFSET_MASK`, from
`IMM_MASK` and `REL_MASK`, and from the register facets `SRC_REG`, `SRC_SEG_REG`,
`SRC_ACC`, `DST_REG` and `DST_ACC`. -/
theorem mem_disp_mask_selects_memory_forms :
    MEM_DISP_MASK = SRC_MEM ||| SRC_MEM_DISP_BYTE ||| SRC_MEM_DISP_FULL ||| DST_MEM
      ||| DST_MEM_DISP_BYTE ||| DST_MEM_DISP_FULL ∧
    single_flags.filter (fun f => decide (f &&& MEM_DISP_MASK ≠ 0)) =
      [SRC_MEM, SRC_MEM_DISP_BYTE, SRC_MEM_DISP_FULL, DST_MEM, DST_MEM_DISP_BYTE,
        DST_MEM_DISP_FULL] ∧
    (SRC_MEM &&& MEM_DISP_MASK = SRC_MEM ∧ DST_MEM &&& MEM_DISP_MASK = DST_MEM) ∧
    MEM_DISP_MASK &&& (SRC_MASK ||| DST_MASK) = MEM_DISP_MASK ∧
    MEM_DISP_MASK &&& MOFFSET_MASK = 0 ∧
    MEM_DISP_MASK &&& IMM_MASK = 0 ∧
    MEM_DISP_MASK &&& REL_MASK = 0 ∧
    (∀ f ∈ [SRC_REG, SRC_SEG_REG, SRC_ACC, DST_REG, DST_ACC], MEM_DISP_MASK &&& f = 0) := by
  decide

end X86
